import Mathlib

/-!
Shallow embedding of the IMMORTAL-CORD task-mirroring pipeline: the
clickup-manager reconciler `mirrorFilesToClickUp` together with its index
helpers `getExistingTasks` / `createTaskMap` / `saveTaskIndex`, the vault
credential getter `getClickUpCredentials`, and the scheduler helper
`convertMinutesToCron`.  External effects are modelled explicitly: the
ClickUp REST surface is an oracle record of `Except`-valued operations,
the on-disk index file is an `Option IndexFile` threaded through, and
every remote call issued during a pass is recorded in an ordered trace.
-/

namespace ImmortalCord

/-- ClickUp credential bundle as returned by vault.js `getClickUpCredentials`. -/
structure Creds where
  apiKey : String
  workspaceId : String
  deriving DecidableEq

/-- One record of the persisted task index — equally, one element of the
`results` array that `mirrorFilesToClickUp` builds, which is exactly what
`saveTaskIndex` serialises.  Fields model the JSON-object properties the
code ever reads back; `none` stands for a missing/undefined property.
Saved result records carry `action`/`fileId`/`taskId` but no `id`
property; the nested `task` object written alongside is never read back,
so it is not modelled. -/
structure TaskRec where
  action : Option String := none
  fileId : Option String := none
  taskId : Option String := none
  id : Option String := none
  deriving DecidableEq

/-- Parsed shape of `ClickUp_Task_Index.json`, as far as the code reads it. -/
structure TaskIndexDoc where
  generatedAt : String
  totalTasks : Nat
  tasks : Option (List TaskRec)
  deriving DecidableEq

/-- State of the index file on disk: `corrupt` models a file whose read or
`JSON.parse` throws (unreadable bytes or invalid JSON). -/
inductive IndexFile
  | corrupt
  | doc (d : TaskIndexDoc)
  deriving DecidableEq

/-- A tagged file handed to `mirrorFilesToClickUp` by drive-manager. -/
structure TaggedFile where
  id : String
  name : String
  mimeType : String
  tags : List String
  deriving DecidableEq

/-- ClickUp response task (`response.data`): only its `id` is ever used. -/
structure CUTask where
  id : String
  deriving DecidableEq

/-- Resolved destination list returned by `getOrCreateMainList`. -/
structure ListHandle where
  id : String
  deriving DecidableEq

/-- Oracle for the ClickUp REST surface consumed by one pass:
`resolveList` is the outcome of the whole `getOrCreateMainList`
resolve-or-create chain (which rethrows on any failure), `create` is the
POST issued by `createTask` (file, list id), and `update` is the PUT
issued by `updateTask`, keyed by the task-id segment of its URL. -/
structure TaskStore where
  resolveList : Except String ListHandle
  create : TaggedFile → String → Except String CUTask
  update : String → TaggedFile → Except String CUTask

/-- Remote calls issued during a pass, in order. -/
inductive Call
  | resolve
  | create (fileId listId : String)
  | update (taskId fileId : String)
  deriving DecidableEq

/-- JS template-literal rendering of a possibly-undefined string, as in
the URL `.../task/${taskId}` built by `updateTask`: an undefined value
renders as the literal text "undefined". -/
def jsStr : Option String → String
  | none => "undefined"
  | some s => s

/-- vault.js `getClickUpCredentials`: reads `credentials.clickup.apiKey`.
When the clickup bundle was never loaded, `credentials.clickup` is null
and the property access throws a TypeError (modelled as the error case). -/
def getClickUpCredentials : Option Creds → Except String Creds
  | none => .error "TypeError: Cannot read properties of null"
  | some c => .ok c

/-- clickup-manager.js `getExistingTasks`: reads the local index cache.
A missing file, an unreadable/corrupt file (the catch branch), and a
parsed document without a `tasks` array all yield the empty list. -/
def getExistingTasks : Option IndexFile → List TaskRec
  | none => []
  | some .corrupt => []
  | some (.doc d) => d.tasks.getD []

/-- clickup-manager.js `createTaskMap`: builds the file-id to task lookup.
A JS object is modelled as a function; entries with a falsy `fileId`
(missing property or the empty string) are skipped, and later entries
overwrite earlier ones. -/
def createTaskMap (tasks : List TaskRec) : String → Option TaskRec :=
  tasks.foldl
    (fun map task =>
      match task.fileId with
      | some fid =>
        if fid = "" then map else fun key => if key = fid then some task else map key
      | none => map)
    (fun _ => none)

/-- Path constant `TASK_INDEX_PATH` of clickup-manager.js. -/
def taskIndexPath : String := "vault/ClickUp_Task_Index.json"

/-- clickup-manager.js `saveTaskIndex`: rewrites the index file wholesale
with `totalTasks = tasks.length` and `generatedAt = now` (the
`new Date().toISOString()` value).  `writeOk` says whether the
mkdir/write throws; on failure the function's own catch swallows the
error and returns null (first component `none`), leaving the disk
unchanged. -/
def saveTaskIndex (writeOk : Bool) (now : String) (tasks : List TaskRec)
    (disk : Option IndexFile) : Option String × Option IndexFile :=
  if writeOk then
    (some taskIndexPath,
     some (.doc { generatedAt := now, totalTasks := tasks.length, tasks := some tasks }))
  else
    (none, disk)

/-- One iteration of the `for (const file of taggedFiles)` loop in
`mirrorFilesToClickUp`: classify via the lookup, issue exactly one store
call, and on success push one result record.  The update path passes
`existingTask.id` — the `id` property of the index record, not its
`taskId` — into the PUT URL and into the result, exactly as the JS does.
The per-item catch only logs, so a failed item contributes no record. -/
def processFile (store : TaskStore) (taskMap : String → Option TaskRec)
    (listId : String) (file : TaggedFile) : Option TaskRec × List Call :=
  match taskMap file.id with
  | some existingTask =>
    match store.update (jsStr existingTask.id) file with
    | .ok _ =>
      (some { action := some "updated", fileId := some file.id, taskId := existingTask.id },
       [Call.update (jsStr existingTask.id) file.id])
    | .error _ => (none, [Call.update (jsStr existingTask.id) file.id])
  | none =>
    match store.create file listId with
    | .ok newTask =>
      (some { action := some "created", fileId := some file.id, taskId := some newTask.id },
       [Call.create file.id listId])
    | .error _ => (none, [Call.create file.id listId])

/-- The whole per-file loop: accumulated results and the remote-call
trace, both in input order. -/
def processFiles (store : TaskStore) (taskMap : String → Option TaskRec)
    (listId : String) : List TaggedFile → List TaskRec × List Call
  | [] => ([], [])
  | file :: rest =>
    let step := processFile store taskMap listId file
    let r := processFiles store taskMap listId rest
    (step.1.toList ++ r.1, step.2 ++ r.2)

/-- Ambient state one pass runs against: the vault's clickup bundle, the
index file on disk, the remote store oracle, whether the index write will
succeed, and the current timestamp. -/
structure MirrorEnv where
  creds : Option Creds
  disk : Option IndexFile
  store : TaskStore
  writeOk : Bool
  now : String

/-- Observable outcome of a pass: the value returned to the caller
(`results`), the index file afterwards, and the remote calls issued. -/
structure MirrorOut where
  results : List TaskRec
  disk : Option IndexFile
  calls : List Call
  deriving DecidableEq

/-- clickup-manager.js `mirrorFilesToClickUp`.  The outer try/catch turns
any thrown error — the credential TypeError, the explicit
missing-credentials throw, or a `getOrCreateMainList` failure (which
rethrows) — into a normal `[]` return with no disk change.  The
module-level `taskCountCache`/`lastSyncTime` updates and all logging are
omitted: nothing modelled here reads them. -/
def mirrorFilesToClickUp (env : MirrorEnv) (taggedFiles : List TaggedFile) : MirrorOut :=
  match getClickUpCredentials env.creds with
  | .error _ => { results := [], disk := env.disk, calls := [] }
  | .ok clickupCreds =>
    if clickupCreds.apiKey = "" ∨ clickupCreds.workspaceId = "" then
      { results := [], disk := env.disk, calls := [] }
    else
      match env.store.resolveList with
      | .error _ => { results := [], disk := env.disk, calls := [Call.resolve] }
      | .ok mainList =>
        let pr := processFiles env.store (createTaskMap (getExistingTasks env.disk))
          mainList.id taggedFiles
        { results := pr.1,
          disk := (saveTaskIndex env.writeOk env.now pr.1 env.disk).2,
          calls := Call.resolve :: pr.2 }

/-- The single store call the loop issues for one file: an update (at the
URL built from the index record's `id` property) when the file id is in
the lookup, a create under the resolved list otherwise. -/
def plannedCall (taskMap : String → Option TaskRec) (listId : String)
    (file : TaggedFile) : Call :=
  match taskMap file.id with
  | some existingTask => Call.update (jsStr existingTask.id) file.id
  | none => Call.create file.id listId

/-- scheduler.js `convertMinutesToCron`: interval in minutes to a cron
expression.  The JS throw is modelled as the error case. -/
def convertMinutesToCron (minutes : Int) : Except String String :=
  if minutes < 1 then .error "Minutes must be at least 1"
  else if minutes < 60 then .ok s!"*/{minutes} * * * *"
  else
    let hours := minutes / 60
    let remainingMinutes := minutes % 60
    if hours < 24 then .ok s!"{remainingMinutes} */{hours} * * *"
    else
      let days := hours / 24
      let remainingHours := hours % 24
      if days = 1 then .ok s!"{remainingMinutes} {remainingHours} * * *"
      else .ok s!"{remainingMinutes} {remainingHours} */{days} * *"

/-- Concrete fixture: a first tagged file. -/
def fileA : TaggedFile :=
  { id := "f1", name := "Doc A", mimeType := "application/pdf", tags := ["lore"] }

/-- Concrete fixture: a second tagged file. -/
def fileB : TaggedFile :=
  { id := "f2", name := "Doc B", mimeType := "text/plain", tags := [] }

/-- Concrete fixture: well-formed credentials. -/
def goodCreds : Creds := { apiKey := "pk_123", workspaceId := "ws_1" }

/-- Store in which every operation succeeds; a created task gets the id
`t-` followed by the file id. -/
def storeAllOk : TaskStore :=
  { resolveList := .ok { id := "list-1" },
    create := fun f _ => .ok { id := "t-" ++ f.id },
    update := fun _ _ => .ok { id := "t-upd" } }

/-- Store in which creating a task for file `f2` fails and every other
operation succeeds. -/
def storeFailB : TaskStore :=
  { resolveList := .ok { id := "list-1" },
    create := fun f _ => if f.id = "f2" then .error "ECONNRESET" else .ok { id := "t-" ++ f.id },
    update := fun _ _ => .ok { id := "t-upd" } }

/-- Store state after the first pass of the two-pass scenario: exactly
the task `t-f1` exists remotely, so an update succeeds only at that task
id and any other PUT (including `/task/undefined`) is a 404. -/
def storeAfterPass1 : TaskStore :=
  { resolveList := .ok { id := "list-1" },
    create := fun f _ => .ok { id := "dup-" ++ f.id },
    update := fun taskId _ =>
      if taskId = "t-f1" then .ok { id := "t-f1" } else .error "404 task not found" }

/-- Environment with valid credentials, no prior index, an all-success
store, and a working disk. -/
def envAllOk : MirrorEnv :=
  { creds := some goodCreds, disk := none, store := storeAllOk, writeOk := true, now := "T1" }

/-- Same as `envAllOk` but the create call for `f2` fails. -/
def envFailB : MirrorEnv := { envAllOk with store := storeFailB }

/-- Same as `envAllOk` but the index write fails. -/
def envWriteFail : MirrorEnv := { envAllOk with writeOk := false }

/-- Same as `envAllOk` but the loaded credentials have an empty apiKey. -/
def envEmptyKey : MirrorEnv :=
  { envAllOk with creds := some { apiKey := "", workspaceId := "ws_1" } }

/-- Same as `envAllOk` but the clickup credential bundle is null. -/
def envNoCreds : MirrorEnv := { envAllOk with creds := none }

/-- Second pass of the two-pass scenario: the disk holds the index the
first pass wrote and the store holds exactly the task the first pass
created; the remote file list is unchanged. -/
def envPass2 : MirrorEnv :=
  { creds := some goodCreds,
    disk := (mirrorFilesToClickUp envAllOk [fileA]).disk,
    store := storeAfterPass1,
    writeOk := true,
    now := "T2" }

/-- Store whose container resolution fails (`getOrCreateMainList`
rethrows). -/
def storeResolveFail : TaskStore :=
  { resolveList := .error "503 service unavailable",
    create := fun f _ => .ok { id := "t-" ++ f.id },
    update := fun _ _ => .ok { id := "t-upd" } }

/-- Same as `envAllOk` but container resolution fails. -/
def envResolveFail : MirrorEnv := { envAllOk with store := storeResolveFail }

/-- A well-formed index record for file `f1` whose `id` property is the
task id `t-f1`. -/
def recA1 : TaskRec :=
  { action := some "created", fileId := some "f1", taskId := some "t-f1", id := some "t-f1" }

/-- A prior on-disk index holding exactly `recA1`. -/
def diskWithA : Option IndexFile :=
  some (.doc { generatedAt := "T0", totalTasks := 1, tasks := some [recA1] })

/-- Same as `envAllOk` but the disk already indexes file `f1`. -/
def envMixed : MirrorEnv := { envAllOk with disk := diskWithA }

/-- The result record a successful create for file `f1` pushes (and
saves): note there is no `id` property. -/
def recF1created : TaskRec :=
  { action := some "created", fileId := some "f1", taskId := some "t-f1" }

/-- Helper: one loop iteration issues exactly the planned call, whatever
the store's answer. -/
theorem processFile_calls (store : TaskStore) (taskMap : String → Option TaskRec)
    (listId : String) (file : TaggedFile) :
    (processFile store taskMap listId file).2 = [plannedCall taskMap listId file] := by
  cases hm : taskMap file.id with
  | none => cases hc : store.create file listId <;> simp [processFile, plannedCall, hm, hc]
  | some e => cases hc : store.update (jsStr e.id) file <;> simp [processFile, plannedCall, hm, hc]

/-- Helper: the loop's remote-call trace is one planned call per file, in
input order. -/
theorem processFiles_calls (store : TaskStore) (taskMap : String → Option TaskRec)
    (listId : String) (files : List TaggedFile) :
    (processFiles store taskMap listId files).2 = files.map (plannedCall taskMap listId) := by
  induction files with
  | nil => rfl
  | cons f rest ih => simp [processFiles, processFile_calls, ih]

/-- Helper: a record emitted for a file carries that file's id and is
classified `created` or `updated`. -/
theorem processFile_result (store : TaskStore) (taskMap : String → Option TaskRec)
    (listId : String) (file : TaggedFile) (r : TaskRec)
    (h : (processFile store taskMap listId file).1 = some r) :
    r.fileId = some file.id ∧ (r.action = some "created" ∨ r.action = some "updated") := by
  cases hm : taskMap file.id with
  | some e =>
    cases hc : store.update (jsStr e.id) file with
    | ok t =>
      simp [processFile, hm, hc] at h
      subst h
      exact ⟨rfl, Or.inr rfl⟩
    | error s => simp [processFile, hm, hc] at h
  | none =>
    cases hc : store.create file listId with
    | ok t =>
      simp [processFile, hm, hc] at h
      subst h
      exact ⟨rfl, Or.inl rfl⟩
    | error s => simp [processFile, hm, hc] at h

/-- Helper: every record the loop emits is `created` or `updated`. -/
theorem processFiles_action (store : TaskStore) (taskMap : String → Option TaskRec)
    (listId : String) (files : List TaggedFile) (r : TaskRec)
    (h : r ∈ (processFiles store taskMap listId files).1) :
    r.action = some "created" ∨ r.action = some "updated" := by
  induction files with
  | nil => simp [processFiles] at h
  | cons f rest ih =>
    simp only [processFiles, List.mem_append] at h
    rcases h with h | h
    · cases hs : (processFile store taskMap listId f).1 with
      | none => rw [hs] at h; simp at h
      | some r0 =>
        rw [hs] at h
        simp at h
        subst h
        exact (processFile_result store taskMap listId f _ hs).2
    · exact ih h

/-- Helper: the emitted records' `fileId` values form a sublist of the
input files' ids (each file contributes at most one record, with its own
id). -/
theorem processFiles_fileIds (store : TaskStore) (taskMap : String → Option TaskRec)
    (listId : String) (files : List TaggedFile) :
    ((processFiles store taskMap listId files).1.map TaskRec.fileId).Sublist
      (files.map (fun f => some f.id)) := by
  induction files with
  | nil => simp [processFiles]
  | cons f rest ih =>
    cases hs : (processFile store taskMap listId f).1 with
    | none =>
      simp only [processFiles, hs, Option.toList_none, List.nil_append, List.map_cons]
      exact ih.cons _
    | some r0 =>
      have hf := (processFile_result store taskMap listId f r0 hs).1
      simp only [processFiles, hs, Option.toList_some, List.singleton_append, List.map_cons, hf]
      exact ih.cons₂ _

/-- Helper: when every file's store call succeeds, the loop emits one
record per file. -/
theorem processFiles_length_ok (store : TaskStore) (taskMap : String → Option TaskRec)
    (listId : String) (files : List TaggedFile)
    (h : ∀ f ∈ files, ((processFile store taskMap listId f).1).isSome) :
    (processFiles store taskMap listId files).1.length = files.length := by
  induction files with
  | nil => rfl
  | cons f rest ih =>
    have h1 := h f (by simp)
    have h2 : ∀ g ∈ rest, ((processFile store taskMap listId g).1).isSome :=
      fun g hg => h g (by simp [hg])
    cases hs : (processFile store taskMap listId f).1 with
    | none => rw [hs] at h1; simp at h1
    | some r0 => simp [processFiles, hs, ih h2]

/-- Helper: the loop distributes over list append. -/
theorem processFiles_append (store : TaskStore) (taskMap : String → Option TaskRec)
    (listId : String) (as bs : List TaggedFile) :
    processFiles store taskMap listId (as ++ bs)
      = ((processFiles store taskMap listId as).1 ++ (processFiles store taskMap listId bs).1,
         (processFiles store taskMap listId as).2 ++ (processFiles store taskMap listId bs).2) := by
  induction as with
  | nil => simp [processFiles]
  | cons f rest ih => simp [processFiles, ih]

/-- Helper: on valid credentials and successful container resolution, a
pass runs the loop, rewrites the index from its results, and returns
them. -/
theorem mirror_ok (env : MirrorEnv) (files : List TaggedFile) (c : Creds) (lh : ListHandle)
    (hc : env.creds = some c) (ha : c.apiKey ≠ "") (hw : c.workspaceId ≠ "")
    (hr : env.store.resolveList = .ok lh) :
    mirrorFilesToClickUp env files =
      { results := (processFiles env.store (createTaskMap (getExistingTasks env.disk)) lh.id files).1,
        disk := (saveTaskIndex env.writeOk env.now
          (processFiles env.store (createTaskMap (getExistingTasks env.disk)) lh.id files).1 env.disk).2,
        calls := Call.resolve ::
          (processFiles env.store (createTaskMap (getExistingTasks env.disk)) lh.id files).2 } := by
  unfold mirrorFilesToClickUp
  rw [hc]
  simp [getClickUpCredentials, ha, hw, hr]

/-- Helper: a missing bundle or empty-string credential field aborts the
pass inside the outer catch: empty results, untouched disk, no remote
call. -/
theorem mirror_configFail (env : MirrorEnv) (files : List TaggedFile)
    (h : env.creds = none ∨ ∃ c, env.creds = some c ∧ (c.apiKey = "" ∨ c.workspaceId = "")) :
    mirrorFilesToClickUp env files = { results := [], disk := env.disk, calls := [] } := by
  unfold mirrorFilesToClickUp
  rcases h with h | ⟨c, hc, hcc⟩
  · rw [h]
    rfl
  · rw [hc]
    simp only [getClickUpCredentials]
    rw [if_pos hcc]

/-- C5: total index load — `getExistingTasks` never fails: a missing
index file yields `[]`, an unreadable or corrupt (unparseable) file
yields `[]` via the catch branch, and any parsed document yields its
`tasks` array or `[]` when that field is absent.  Totality is by
construction: the function is defined on every disk state. -/
theorem c5_total_index_load :
    getExistingTasks none = [] ∧
    getExistingTasks (some IndexFile.corrupt) = [] ∧
    ∀ d : TaskIndexDoc, getExistingTasks (some (IndexFile.doc d)) = d.tasks.getD [] :=
  ⟨rfl, rfl, fun _ => rfl⟩

/-- C9: interval-to-schedule conversion — minutes below 1 are rejected
with an error; below 60 the every-X-minutes expression; below 1440 the
hourly-at-offset expression with minute offset `m % 60` every `m / 60`
hours; from 1440 up to one day short of two days the daily expression at
hour `m / 60 % 24` and minute `m % 60`; and from 2880 the every-N-days
expression with the same hour and minute offsets. -/
theorem c9_minutes_to_cron (m : Int) :
    (m < 1 → convertMinutesToCron m = .error "Minutes must be at least 1") ∧
    (1 ≤ m → m < 60 → convertMinutesToCron m = .ok s!"*/{m} * * * *") ∧
    (60 ≤ m → m < 1440 → convertMinutesToCron m = .ok s!"{m % 60} */{m / 60} * * *") ∧
    (1440 ≤ m → m < 2880 → convertMinutesToCron m = .ok s!"{m % 60} {m / 60 % 24} * * *") ∧
    (2880 ≤ m → convertMinutesToCron m = .ok s!"{m % 60} {m / 60 % 24} */{m / 60 / 24} * *") := by
  refine ⟨fun h => ?_, fun h1 h2 => ?_, fun h1 h2 => ?_, fun h1 h2 => ?_, fun h1 => ?_⟩
  · unfold convertMinutesToCron
    rw [if_pos h]
  · unfold convertMinutesToCron
    rw [if_neg (by omega), if_pos h2]
  · unfold convertMinutesToCron
    rw [if_neg (by omega), if_neg (by omega), if_pos (by omega)]
  · unfold convertMinutesToCron
    rw [if_neg (by omega), if_neg (by omega), if_neg (by omega), if_pos (by omega)]
  · unfold convertMinutesToCron
    rw [if_neg (by omega), if_neg (by omega), if_neg (by omega), if_neg (by omega)]

/-- C9 witness: concrete evaluations of every branch through the main
theorem — 0 is rejected, 5 gives an every-5-minutes expression, 90 gives
minute 30 every 1 hour, 1500 gives daily at 01:00, and 2880 gives
midnight every 2 days. -/
theorem c9_witness :
    convertMinutesToCron 0 = .error "Minutes must be at least 1" ∧
    convertMinutesToCron 5 = .ok "*/5 * * * *" ∧
    convertMinutesToCron 90 = .ok "30 */1 * * *" ∧
    convertMinutesToCron 1500 = .ok "0 1 * * *" ∧
    convertMinutesToCron 2880 = .ok "0 0 */2 * *" :=
  ⟨(c9_minutes_to_cron 0).1 (by decide),
   (c9_minutes_to_cron 5).2.1 (by decide) (by decide),
   (c9_minutes_to_cron 90).2.2.1 (by decide) (by decide),
   (c9_minutes_to_cron 1500).2.2.2.1 (by decide) (by decide),
   (c9_minutes_to_cron 2880).2.2.2.2 (by decide)⟩

/-- C2: create-vs-update classification — on a pass with valid
credentials and a resolved destination list, the remote-call trace is the
container resolution followed by exactly one store call per input item,
in the input's order: an update of the indexed task when the item's id is
present in the lookup built from the loaded index, and a create under the
resolved list's id when it is absent. -/
theorem c2_create_vs_update (env : MirrorEnv) (files : List TaggedFile)
    (c : Creds) (lh : ListHandle)
    (hc : env.creds = some c) (ha : c.apiKey ≠ "") (hw : c.workspaceId ≠ "")
    (hr : env.store.resolveList = .ok lh) :
    (mirrorFilesToClickUp env files).calls
      = Call.resolve ::
          files.map (plannedCall (createTaskMap (getExistingTasks env.disk)) lh.id) := by
  rw [mirror_ok env files c lh hc ha hw hr]
  simp [processFiles_calls]

/-- C2 witness: with file `f1` already indexed (record id `t-f1`) and
file `f2` unknown, the pass issues exactly one update for `f1` and one
create for `f2` under the resolved list, in input order. -/
theorem c2_witness :
    (mirrorFilesToClickUp envMixed [fileA, fileB]).calls
      = [Call.resolve, Call.update "t-f1" "f1", Call.create "f2" "list-1"] := by
  have h := c2_create_vs_update envMixed [fileA, fileB] goodCreds { id := "list-1" }
    rfl (by decide) (by decide) rfl
  rw [h]
  decide

/-- C3: idempotence across passes fails in the code — the claim (and the
comments in the source: the update path is meant to update the existing
task) is right and the code has a slip.  First pass on `[fileA]` with an
empty index creates task `t-f1` and saves the record
`{action: created, fileId: f1, taskId: t-f1}` (no `id` property).  On the
second pass with the unchanged file list and untouched store, the code
reads `existingTask.id` — undefined — instead of `existingTask.taskId`,
so the PUT goes to `/task/undefined`, fails, and no `updated` result is
emitted; the pass returns `[]` (and rewrites the index empty).  No create
call is made, but no item is classified `updated` either, contradicting
the claim. -/
theorem c3_second_pass_bug :
    (mirrorFilesToClickUp envAllOk [fileA]).results
      = [{ action := some "created", fileId := some "f1", taskId := some "t-f1" }] ∧
    (mirrorFilesToClickUp envPass2 [fileA]).calls
      = [Call.resolve, Call.update "undefined" "f1"] ∧
    (mirrorFilesToClickUp envPass2 [fileA]).results = [] ∧
    (mirrorFilesToClickUp envPass2 [fileA]).disk
      = some (.doc { generatedAt := "T2", totalTasks := 0, tasks := some [] }) := by
  refine ⟨?_, ?_, ?_, ?_⟩ <;> rfl

/-- C10: `mirrorFilesToClickUp` never throws and masks pass-level
failure: under every modelled pass-level error condition — a null
credential bundle (whose property access throws), empty-string
credentials (the explicit throw), or a container-resolution failure — it
returns normally with the empty sequence; and a successful pass over an
empty remote item list also returns the empty sequence, so the two are
indistinguishable at the public interface. -/
theorem c10_never_throws :
    (∀ (env : MirrorEnv) (files : List TaggedFile),
      (env.creds = none ∨ (∃ c, env.creds = some c ∧ (c.apiKey = "" ∨ c.workspaceId = "")) ∨
        ∃ e, env.store.resolveList = .error e) →
      (mirrorFilesToClickUp env files).results = []) ∧
    (∀ (env : MirrorEnv) (c : Creds) (lh : ListHandle),
      env.creds = some c → c.apiKey ≠ "" → c.workspaceId ≠ "" →
      env.store.resolveList = .ok lh →
      (mirrorFilesToClickUp env []).results = []) := by
  constructor
  · intro env files h
    rcases h with h | h | ⟨e, he⟩
    · rw [mirror_configFail env files (Or.inl h)]
    · rw [mirror_configFail env files (Or.inr h)]
    · unfold mirrorFilesToClickUp
      cases hc : env.creds with
      | none => rfl
      | some c =>
        simp only [getClickUpCredentials]
        by_cases hcc : c.apiKey = "" ∨ c.workspaceId = ""
        · rw [if_pos hcc]
        · rw [if_neg hcc, he]
  · intro env c lh hc ha hw hr
    rw [mirror_ok env [] c lh hc ha hw hr]
    rfl

/-- C10 witness: a null credential bundle, a failed container resolution,
and a successful pass over the empty list all return `[]`. -/
theorem c10_witness :
    (mirrorFilesToClickUp envNoCreds [fileA]).results = [] ∧
    (mirrorFilesToClickUp envResolveFail [fileA]).results = [] ∧
    (mirrorFilesToClickUp envAllOk []).results = [] :=
  ⟨c10_never_throws.1 envNoCreds [fileA] (Or.inl rfl),
   c10_never_throws.1 envResolveFail [fileA] (Or.inr (Or.inr ⟨"503 service unavailable", rfl⟩)),
   c10_never_throws.2 envAllOk goodCreds { id := "list-1" } rfl (by decide) (by decide) rfl⟩

/-- C1 counterexample: with two items where the create call for the
second fails and the first succeeds, the claim requires a result sequence
of length 2 with exactly one `failed` entry; the code returns a sequence
of length 1 with no `failed` entry at all — the per-item catch only logs
and pushes nothing. -/
theorem c1_counterexample :
    (mirrorFilesToClickUp envFailB [fileA, fileB]).results.length = 1 ∧
    (mirrorFilesToClickUp envFailB [fileA, fileB]).results.countP
        (fun r => r.action == some "failed") = 0 ∧
    ¬ ((mirrorFilesToClickUp envFailB [fileA, fileB]).results.length = [fileA, fileB].length) := by
  decide

/-- C1 (amended): partial-failure isolation — when exactly the store call
for item k fails (input `pre ++ fk :: post`, every item of `pre`/`post`
succeeding) on a pass with valid credentials, a resolved list, and a
working disk, processing continues past the failure: the returned
sequence has length N−1 with no `failed` entry (every entry is `created`
or `updated`; the failure is only logged), and the newly persisted index
holds exactly those N−1 records. -/
theorem c1_partial_failure_amended (env : MirrorEnv) (pre post : List TaggedFile)
    (fk : TaggedFile) (c : Creds) (lh : ListHandle)
    (hc : env.creds = some c) (ha : c.apiKey ≠ "") (hw : c.workspaceId ≠ "")
    (hr : env.store.resolveList = .ok lh) (hwr : env.writeOk = true)
    (hok : ∀ f ∈ pre ++ post,
      ((processFile env.store (createTaskMap (getExistingTasks env.disk)) lh.id f).1).isSome)
    (hfail : (processFile env.store (createTaskMap (getExistingTasks env.disk)) lh.id fk).1
      = none) :
    (mirrorFilesToClickUp env (pre ++ fk :: post)).results.length
        = (pre ++ fk :: post).length - 1 ∧
    (∀ r ∈ (mirrorFilesToClickUp env (pre ++ fk :: post)).results,
      r.action = some "created" ∨ r.action = some "updated") ∧
    (mirrorFilesToClickUp env (pre ++ fk :: post)).disk
      = some (.doc
          { generatedAt := env.now,
            totalTasks := (mirrorFilesToClickUp env (pre ++ fk :: post)).results.length,
            tasks := some (mirrorFilesToClickUp env (pre ++ fk :: post)).results }) := by
  rw [mirror_ok env (pre ++ fk :: post) c lh hc ha hw hr]
  dsimp only
  have h1 : (processFiles env.store (createTaskMap (getExistingTasks env.disk)) lh.id
      (pre ++ fk :: post)).1
      = (processFiles env.store (createTaskMap (getExistingTasks env.disk)) lh.id pre).1
        ++ (processFiles env.store (createTaskMap (getExistingTasks env.disk)) lh.id post).1 := by
    rw [processFiles_append]
    simp [processFiles, hfail]
  have hpre : (processFiles env.store (createTaskMap (getExistingTasks env.disk)) lh.id
      pre).1.length = pre.length :=
    processFiles_length_ok _ _ _ _ (fun f hf => hok f (by simp [hf]))
  have hpost : (processFiles env.store (createTaskMap (getExistingTasks env.disk)) lh.id
      post).1.length = post.length :=
    processFiles_length_ok _ _ _ _ (fun f hf => hok f (by simp [hf]))
  refine ⟨?_, ?_, ?_⟩
  · rw [h1]
    simp only [List.length_append, List.length_cons, hpre, hpost]
    omega
  · exact fun r hr => processFiles_action _ _ _ _ r hr
  · rw [hwr]
    simp [saveTaskIndex]

/-- C1 witness: two items, the create for the second fails — the pass
returns one record and persists an index with exactly that record. -/
theorem c1_witness :
    (mirrorFilesToClickUp envFailB [fileA, fileB]).results.length
        = [fileA, fileB].length - 1 ∧
    (mirrorFilesToClickUp envFailB [fileA, fileB]).disk
      = some (.doc
          { generatedAt := "T1",
            totalTasks := (mirrorFilesToClickUp envFailB [fileA, fileB]).results.length,
            tasks := some (mirrorFilesToClickUp envFailB [fileA, fileB]).results }) := by
  have h := c1_partial_failure_amended envFailB [fileA] [] fileB goodCreds { id := "list-1" }
    rfl (by decide) (by decide) rfl rfl (by decide) (by decide)
  exact ⟨h.1, h.2.2⟩

/-- C4 counterexample: the reconciler can pass duplicate records to the
save — with the same file listed twice (the lookup is built once, before
the loop), a pass over `[fileA, fileA]` saves two records with the same
`fileId`, so the uniqueness half of the claim fails for a reachable save
input. -/
theorem c4_counterexample :
    (mirrorFilesToClickUp envAllOk [fileA, fileA]).disk
      = some (.doc
          { generatedAt := "T1", totalTasks := 2,
            tasks := some [recF1created, recF1created] }) ∧
    ¬ (((mirrorFilesToClickUp envAllOk [fileA, fileA]).results.map TaskRec.fileId).Nodup) := by
  decide

/-- C4 (amended): index invariant — after every successful save performed
by a pass, the persisted document satisfies totalTasks = length(tasks)
(unconditionally: `saveTaskIndex` computes it), and the `fileId` values
in tasks are pairwise distinct provided the input remote items have
pairwise-distinct ids, as the data model guarantees (with duplicated
input ids, duplicate entries are saved). -/
theorem c4_index_invariant_amended (env : MirrorEnv) (files : List TaggedFile)
    (c : Creds) (lh : ListHandle)
    (hc : env.creds = some c) (ha : c.apiKey ≠ "") (hw : c.workspaceId ≠ "")
    (hr : env.store.resolveList = .ok lh) (hwr : env.writeOk = true)
    (hnodup : (files.map TaggedFile.id).Nodup) :
    (mirrorFilesToClickUp env files).disk
      = some (.doc
          { generatedAt := env.now,
            totalTasks := (mirrorFilesToClickUp env files).results.length,
            tasks := some (mirrorFilesToClickUp env files).results }) ∧
    (((mirrorFilesToClickUp env files).results.map TaskRec.fileId).Nodup) := by
  rw [mirror_ok env files c lh hc ha hw hr]
  dsimp only
  constructor
  · rw [hwr]
    simp [saveTaskIndex]
  · have hsub := processFiles_fileIds env.store (createTaskMap (getExistingTasks env.disk))
      lh.id files
    have hnd : (files.map (fun f => some f.id)).Nodup := by
      have hmm : files.map (fun f => some f.id) = (files.map TaggedFile.id).map some := by
        simp [List.map_map]
      rw [hmm]
      exact hnodup.map (Option.some_injective String)
    exact hnd.sublist hsub

/-- C4 witness: two distinct files, all operations succeed — the saved
document has totalTasks equal to its task count and distinct fileIds. -/
theorem c4_witness :
    (mirrorFilesToClickUp envAllOk [fileA, fileB]).disk
      = some (.doc
          { generatedAt := "T1",
            totalTasks := (mirrorFilesToClickUp envAllOk [fileA, fileB]).results.length,
            tasks := some (mirrorFilesToClickUp envAllOk [fileA, fileB]).results }) ∧
    (((mirrorFilesToClickUp envAllOk [fileA, fileB]).results.map TaskRec.fileId).Nodup) :=
  c4_index_invariant_amended envAllOk [fileA, fileB] goodCreds { id := "list-1" }
    rfl (by decide) (by decide) rfl rfl (by decide)

/-- C6 counterexample: when the index write fails after one successful
item, nothing is reported to the caller — `saveTaskIndex`'s only failure
signal is its null return, which the reconciler discards: the caller's
value is bit-identical to the success-case value while the disk stays
stale. -/
theorem c6_counterexample :
    (mirrorFilesToClickUp envWriteFail [fileA]).results = [recF1created] ∧
    (mirrorFilesToClickUp envWriteFail [fileA]).disk = none ∧
    (saveTaskIndex false "T1" [recF1created] none).1 = none ∧
    (mirrorFilesToClickUp envWriteFail [fileA]).results
      = (mirrorFilesToClickUp envAllOk [fileA]).results := by
  decide

/-- C6 (amended): when index persistence fails after all items are
processed, the pass still returns the full SyncResult sequence
reflecting the actual remote-side outcomes and leaves the on-disk index
unchanged, but the failure is not reported to the caller: the returned
value is identical to that of the same pass with a successful write.
Per-item failures alone never make the pass fail (the results are
whatever the loop produced, under any per-item outcomes). -/
theorem c6_write_failure_amended (env : MirrorEnv) (files : List TaggedFile)
    (c : Creds) (lh : ListHandle)
    (hc : env.creds = some c) (ha : c.apiKey ≠ "") (hw : c.workspaceId ≠ "")
    (hr : env.store.resolveList = .ok lh) (hfail : env.writeOk = false) :
    (mirrorFilesToClickUp env files).results
      = (processFiles env.store (createTaskMap (getExistingTasks env.disk)) lh.id files).1 ∧
    (mirrorFilesToClickUp env files).disk = env.disk ∧
    (mirrorFilesToClickUp env files).results
      = (mirrorFilesToClickUp { env with writeOk := true } files).results := by
  rw [mirror_ok env files c lh hc ha hw hr]
  dsimp only
  refine ⟨rfl, ?_, ?_⟩
  · rw [hfail]
    simp [saveTaskIndex]
  · rw [mirror_ok { env with writeOk := true } files c lh hc ha hw hr]

/-- C6 witness: failed write with one successful item — full results
returned, disk unchanged, return value equal to the successful-write
run's. -/
theorem c6_witness :
    (mirrorFilesToClickUp envWriteFail [fileA]).results
      = (processFiles envWriteFail.store
          (createTaskMap (getExistingTasks envWriteFail.disk)) "list-1" [fileA]).1 ∧
    (mirrorFilesToClickUp envWriteFail [fileA]).disk = none ∧
    (mirrorFilesToClickUp envWriteFail [fileA]).results
      = (mirrorFilesToClickUp { envWriteFail with writeOk := true } [fileA]).results :=
  c6_write_failure_amended envWriteFail [fileA] goodCreds { id := "list-1" }
    rfl (by decide) (by decide) rfl rfl

/-- C7 counterexample: with loaded credentials whose apiKey is the empty
string, the claim requires a configuration error surfaced to the caller;
the code instead catches its own throw and returns normally with `[]` —
bit-identical to a successful pass over an empty remote item list.  (The
no-remote-call half of the claim does hold: the trace is empty.) -/
theorem c7_counterexample :
    mirrorFilesToClickUp envEmptyKey [fileA]
      = { results := [], disk := none, calls := [] } ∧
    (mirrorFilesToClickUp envEmptyKey [fileA]).results
      = (mirrorFilesToClickUp envAllOk []).results := by
  decide

/-- C7 (amended): configuration-error fail-fast, without surfacing — a
missing credential bundle or an empty apiKey/workspaceId aborts the pass
before any remote call is attempted (the remote-call trace is empty) and
leaves the index untouched, but the error is caught inside
`mirrorFilesToClickUp`: the caller receives a normal empty result
sequence rather than an error. -/
theorem c7_config_fail_amended (env : MirrorEnv) (files : List TaggedFile)
    (h : env.creds = none ∨ ∃ c, env.creds = some c ∧ (c.apiKey = "" ∨ c.workspaceId = "")) :
    (mirrorFilesToClickUp env files).results = [] ∧
    (mirrorFilesToClickUp env files).calls = [] ∧
    (mirrorFilesToClickUp env files).disk = env.disk := by
  rw [mirror_configFail env files h]
  exact ⟨rfl, rfl, rfl⟩

/-- C7 witness: empty apiKey — no remote call, empty results, untouched
disk. -/
theorem c7_witness :
    (mirrorFilesToClickUp envEmptyKey [fileA]).results = [] ∧
    (mirrorFilesToClickUp envEmptyKey [fileA]).calls = [] ∧
    (mirrorFilesToClickUp envEmptyKey [fileA]).disk = none :=
  c7_config_fail_amended envEmptyKey [fileA] (Or.inr ⟨_, rfl, Or.inl rfl⟩)

/-- C8: index round-trip — saving what was loaded from a well-formed
persisted index (tasks field present, totalTasks equal to its length)
rewrites a document with the same totalTasks and tasks, only
`generatedAt` changing; and loading with no index file on disk yields the
empty task list, whose save is the empty index with totalTasks 0. -/
theorem c8_index_round_trip (d : TaskIndexDoc) (ts : List TaskRec) (now : String)
    (disk0 : Option IndexFile)
    (h1 : d.tasks = some ts) (h2 : d.totalTasks = ts.length) :
    (saveTaskIndex true now (getExistingTasks (some (IndexFile.doc d))) disk0).2
      = some (IndexFile.doc
          { generatedAt := now, totalTasks := d.totalTasks, tasks := d.tasks }) ∧
    getExistingTasks none = [] ∧
    (saveTaskIndex true now (getExistingTasks none) disk0).2
      = some (IndexFile.doc { generatedAt := now, totalTasks := 0, tasks := some [] }) := by
  refine ⟨?_, rfl, rfl⟩
  simp [saveTaskIndex, getExistingTasks, h1, h2]

/-- C8 witness: round-trip of the concrete one-record index `diskWithA`
and the missing-file case. -/
theorem c8_witness :
    (saveTaskIndex true "T3" (getExistingTasks diskWithA) none).2
      = some (IndexFile.doc { generatedAt := "T3", totalTasks := 1, tasks := some [recA1] }) ∧
    getExistingTasks none = [] ∧
    (saveTaskIndex true "T3" (getExistingTasks none) none).2
      = some (IndexFile.doc { generatedAt := "T3", totalTasks := 0, tasks := some [] }) :=
  c8_index_round_trip { generatedAt := "T0", totalTasks := 1, tasks := some [recA1] }
    [recA1] "T3" none rfl rfl

end ImmortalCord
